import Mathlib

set_option maxRecDepth 8000

/-!
Shallow embedding of the forest-carbon simulation engine of `dynamics.py`
(stand growth via 3-PG-style equations, stochastic fire / beetle-infestation
disturbances, landscape aggregation, scenario comparison).

Modelling conventions:
* Python floats become exact rationals (`ℚ`); `np.exp` and `np.log` are
  injected as an abstract `Analytic` record, since the model only ever
  composes them algebraically.
* State-variable histories are Lean lists in chronological order; Python's
  `xs[-1]` is `cur`, and `xs[-2]` is `prev`.
* The parameter dictionary becomes an association list from names to values
  (the unit and description strings stored alongside each value in the source
  are never read by the model code and are dropped); a missing key, Python's
  `KeyError`, is an `Except.error` carrying the key.
* Python's `x ** n_age` is embedded with a natural-number exponent; the
  repository's exponent parameter is the integer 4.
* The implicit global random source becomes an injected stream `ℕ → ℚ`
  consumed draw by draw, with the draw position threaded explicitly.
-/

namespace ForestDynamics

/-- Injected analytic primitives standing for `np.exp` and `np.log`. -/
structure Analytic where
  exp : ℚ → ℚ
  log : ℚ → ℚ

/-- The state-variable time-series dictionary (`states` in the source): one
append-only list per state variable, one entry per simulated year including
the initial condition. -/
structure CState where
  age : List ℕ
  w_f : List ℚ
  w_s : List ℚ
  w_r : List ℚ
  w_l : List ℚ
  w_c : List ℚ
  w_o : List ℚ
  LAI : List ℚ
  interception : List ℚ
deriving DecidableEq

/-- Python's `xs[-1]` (most recent value) on a history list. -/
def cur (l : List ℚ) : ℚ := l.getLastD 0

/-- Python's `xs[-2]` (second most recent value) on a history list. -/
def prev (l : List ℚ) : ℚ := l.dropLast.getLastD 0

/-- The parameter dictionary: association list from parameter name to value. -/
abbrev Params := List (String × ℚ)

/-- The source's default `params` values. -/
def defaultParams : Params :=
  [("age_max", 150), ("n_age", 4), ("phi_s", 5.5), ("f_DT", 0.5),
   ("sigma_f", 3.2), ("beers_k", 0.4), ("microbial_efficiency", 0.25)]

/-- Reading `params[key][0]`; a missing key raises Python's `KeyError`,
embedded as an error carrying the key name. -/
def readParam (p : Params) (k : String) : Except String ℚ :=
  match List.lookup k p with
  | some v => Except.ok v
  | none => Except.error k

/-- Embeds `beers_law_scalar(beers_k, LAI) = np.exp(-1 * beers_k * LAI)`. -/
def beers_law_scalar (A : Analytic) (beers_k LAI : ℚ) : ℚ :=
  A.exp (-1 * beers_k * LAI)

/-- Embeds `age_modifier(age, age_max, n_age)`:
`relative_age = float(age)/age_max; 1.0 / (1 + (relative_age/0.95)**n_age)`. -/
def age_modifier (age age_max : ℚ) (n_age : ℕ) : ℚ :=
  let relative_age := age / age_max
  1 / (1 + (relative_age / 0.95) ^ n_age)

/-- Canopy light-interception fraction, `1 - beers_law_scalar(beers_k, LAI)`
(line `intercept_fraction` of `three_PG`). -/
def intercept_fraction_of (A : Analytic) (beers_k LAI : ℚ) : ℚ :=
  1 - beers_law_scalar A beers_k LAI

/-- Absorbed photosynthetically-active radiation as computed by `three_PG`:
`phi_s_conv = phi_s * 3.6; phi_p = phi_s_conv * 0.5; phi_pa = phi_p *
intercept_fraction`.  (The source's comment on the `0.5` line reads
"photosynthetically-active radiation is 45% of total shortwave".) -/
def phi_pa_of (A : Analytic) (phi_s beers_k LAI : ℚ) : ℚ :=
  ((phi_s * 3.6) * 0.5) * intercept_fraction_of A beers_k LAI

/-- The annual carbon increment computed by `three_PG`:
`avg_daily_C_increment = phi_pa * alpha_c * f_DT * f_age;
net_daily_C = avg_daily_C_increment * 0.45;
annual_c_increment = net_daily_C * 365 * 0.01`. -/
def annual_c_increment_of (A : Analytic) (age : ℕ) (age_max : ℚ) (n_age : ℕ)
    (phi_s f_DT sigma_f beers_k w_f : ℚ) : ℚ :=
  let LAI := w_f * (0.1 * sigma_f)
  let alpha_c : ℚ := 1.8
  let f_age := age_modifier (age : ℚ) age_max n_age
  let avg_daily_C_increment := phi_pa_of A phi_s beers_k LAI * alpha_c * f_DT * f_age
  let net_daily_C := avg_daily_C_increment * 0.45
  net_daily_C * 365 * 0.01

/-- Half-life-style pool turnover used by `three_PG` for litter, coarse fuel
and soil organic matter: `k = (-1 * np.log(0.5)) / time_constant;
turnover = w * (1 - np.exp(-1 * k))`. -/
def turnover_of (A : Analytic) (time_constant w : ℚ) : ℚ :=
  let k := (-1 * A.log 0.5) / time_constant
  w * (1 - A.exp (-1 * k))

/-- Body of `three_PG` after the parameter reads (source lines 54-111): reads
the most recent state values, computes LAI, light interception, the annual
carbon increment and all turnover flows, applies the pool mass balance, and
appends the new values (including the `age` argument itself) to every state
series. -/
def three_PG_vals (A : Analytic) (age : ℕ) (age_max : ℚ) (n_age : ℕ)
    (phi_s f_DT sigma_f beers_k microbial_efficiency : ℚ)
    (states : CState) : CState :=
  let w_f := cur states.w_f
  let w_s := cur states.w_s
  let w_r := cur states.w_r
  let w_l := cur states.w_l
  let w_c := cur states.w_c
  let w_o := cur states.w_o
  let sigma_f_conv := 0.1 * sigma_f
  let LAI := w_f * sigma_f_conv
  let intercept_fraction := intercept_fraction_of A beers_k LAI
  let annual_c_increment :=
    annual_c_increment_of A age age_max n_age phi_s f_DT sigma_f beers_k w_f
  let litterfall := w_f * 0.20
  let litter_turnover := turnover_of A 2 w_l
  let branchfall := w_s * 0.10
  let coarse_turnover := turnover_of A 20 w_c
  let som_turnover := turnover_of A 10 w_o
  let root_turnover := 0.25 * w_r
  let w_f2 := w_f + (0.33 * annual_c_increment) - litterfall
  let w_s2 := w_s + (0.33 * annual_c_increment) - branchfall
  let w_r2 := w_r + 0.33 * annual_c_increment - root_turnover
  let w_l2 := w_l + litterfall + (0.9 * branchfall) - litter_turnover
  let w_c2 := w_c + (0.1 * branchfall) - coarse_turnover
  let w_o2 := w_o + ((root_turnover + litter_turnover + coarse_turnover)
    * microbial_efficiency) - som_turnover
  { age := states.age ++ [age]
    w_f := states.w_f ++ [w_f2]
    w_s := states.w_s ++ [w_s2]
    w_r := states.w_r ++ [w_r2]
    w_l := states.w_l ++ [w_l2]
    w_c := states.w_c ++ [w_c2]
    w_o := states.w_o ++ [w_o2]
    LAI := states.LAI ++ [LAI]
    interception := states.interception ++ [intercept_fraction] }

/-- Embeds `three_PG(age, params, states)`: reads the seven parameters from the
dictionary (raising `KeyError` on a missing one), then runs the growth step. -/
def three_PG (A : Analytic) (age : ℕ) (params : Params) (states : CState) :
    Except String CState := do
  let age_max ← readParam params "age_max"
  let n_age ← readParam params "n_age"
  let phi_s ← readParam params "phi_s"
  let f_DT ← readParam params "f_DT"
  let sigma_f ← readParam params "sigma_f"
  let beers_k ← readParam params "beers_k"
  let microbial_efficiency ← readParam params "microbial_efficiency"
  pure (three_PG_vals A age age_max n_age.num.toNat phi_s f_DT sigma_f beers_k
    microbial_efficiency states)

/-- Body of `unharvested_infestation` after the parameter read: appends, in
the source's statement order, `0` to `age`, the residual `0.1` to foliage,
stem and root, then litter plus the pre-reset foliage (`w_f[-2]` after the
append), coarse fuel plus the pre-reset stem, soil organic matter plus the
pre-reset root scaled by microbial efficiency, and `0` to LAI and
interception. -/
def unharvested_infestation_vals (microbial_efficiency : ℚ) (s : CState) :
    CState :=
  let age2 := s.age ++ [0]
  let w_f2 := s.w_f ++ [0.1]
  let w_s2 := s.w_s ++ [0.1]
  let w_r2 := s.w_r ++ [0.1]
  let w_l2 := s.w_l ++ [cur s.w_l + prev w_f2]
  let w_c2 := s.w_c ++ [cur s.w_c + prev w_s2]
  let w_o2 := s.w_o ++ [cur s.w_o + prev w_r2 * microbial_efficiency]
  { age := age2, w_f := w_f2, w_s := w_s2, w_r := w_r2, w_l := w_l2
    w_c := w_c2, w_o := w_o2, LAI := s.LAI ++ [0]
    interception := s.interception ++ [0] }

/-- Embeds `unharvested_infestation(param_dictionary, state_dictionary)`. -/
def unharvested_infestation (params : Params) (s : CState) :
    Except String CState := do
  let microbial_efficiency ← readParam params "microbial_efficiency"
  pure (unharvested_infestation_vals microbial_efficiency s)

/-- Body of `harvested_infestation` after the parameter read: identical to
the unharvested variant except that coarse fuel is re-appended unchanged and
the pre-reset stem value (`w_s[-2]` after the append) is returned as the
harvested amount. -/
def harvested_infestation_vals (microbial_efficiency : ℚ) (s : CState) :
    ℚ × CState :=
  let age2 := s.age ++ [0]
  let w_f2 := s.w_f ++ [0.1]
  let w_s2 := s.w_s ++ [0.1]
  let w_r2 := s.w_r ++ [0.1]
  let w_l2 := s.w_l ++ [cur s.w_l + prev w_f2]
  let w_c2 := s.w_c ++ [cur s.w_c]
  let w_o2 := s.w_o ++ [cur s.w_o + prev w_r2 * microbial_efficiency]
  (prev w_s2,
   { age := age2, w_f := w_f2, w_s := w_s2, w_r := w_r2, w_l := w_l2
     w_c := w_c2, w_o := w_o2, LAI := s.LAI ++ [0]
     interception := s.interception ++ [0] })

/-- Embeds `harvested_infestation(param_dictionary, state_dictionary)`. -/
def harvested_infestation (params : Params) (s : CState) :
    Except String (ℚ × CState) := do
  let microbial_efficiency ← readParam params "microbial_efficiency"
  pure (harvested_infestation_vals microbial_efficiency s)

/-- Body of `fire` after the parameter read: appends `0` to `age`, the
residual `0.1` to foliage, stem, root, litter and coarse fuel, soil organic
matter plus the pre-reset root scaled by microbial efficiency, and `0` to LAI
and interception. -/
def fire_vals (microbial_efficiency : ℚ) (s : CState) : CState :=
  let age2 := s.age ++ [0]
  let w_f2 := s.w_f ++ [0.1]
  let w_s2 := s.w_s ++ [0.1]
  let w_r2 := s.w_r ++ [0.1]
  let w_l2 := s.w_l ++ [0.1]
  let w_c2 := s.w_c ++ [0.1]
  let w_o2 := s.w_o ++ [cur s.w_o + prev w_r2 * microbial_efficiency]
  { age := age2, w_f := w_f2, w_s := w_s2, w_r := w_r2, w_l := w_l2
    w_c := w_c2, w_o := w_o2, LAI := s.LAI ++ [0]
    interception := s.interception ++ [0] }

/-- Embeds `fire(param_dictionary, state_dictionary)`. -/
def fire (params : Params) (s : CState) : Except String CState := do
  let microbial_efficiency ← readParam params "microbial_efficiency"
  pure (fire_vals microbial_efficiency s)

/-- The source's initial state dictionary (`states`): age 0, foliage, stem,
root, litter and coarse fuel at `0.1` Mg/ha, soil organic matter at `40`,
LAI and interception at `0`. -/
def initCState : CState :=
  { age := [0], w_f := [0.1], w_s := [0.1], w_r := [0.1], w_l := [0.1]
    w_c := [0.1], w_o := [40], LAI := [0], interception := [0] }

/-- Sum of the six carbon pools at the most recent year of a state. -/
def sumPools (s : CState) : ℚ :=
  cur s.w_f + cur s.w_s + cur s.w_r + cur s.w_l + cur s.w_c + cur s.w_o

/-! ### The landscape simulation `land` (time parameters and per-replicate loop) -/

def start_year : ℕ := 1915

def simulation_length : ℕ := 200

/-- Embeds `simulation_years = range(start_year, start_year + simulation_length)`. -/
def simulation_years : List ℕ := List.range' start_year simulation_length

/-- Embeds `fire_frequency = 200` (years to a stand-replacing fire). -/
def fire_frequency : ℚ := 200

def infest_start : ℕ := 2005

def infest_end : ℕ := 2015

/-- Embeds `infest_risk = 0.8 / (infest_end - infest_start)`. -/
def infest_risk : ℚ := 0.8 / ((infest_end : ℚ) - (infest_start : ℚ))

/-- Per-replicate loop state of `land`: the state-series dictionary, the
stand age counter, the `infested` flag, the per-year event-count and
harvested-carbon arrays, and the year index `j`. -/
structure LandRep where
  cs : CState
  age : ℕ
  infested : Bool
  fires : List ℕ
  infestations : List ℕ
  harvests : List ℚ
  j : ℕ
deriving DecidableEq

/-- A fresh replicate at the start of `land`'s per-run loop: the initial
state dictionary, age 0, `infested = False`, and the event arrays initialized
to `simulation_length + 1` zeros. -/
def initLandRep : LandRep :=
  { cs := initCState, age := 0, infested := false
    fires := List.replicate (simulation_length + 1) 0
    infestations := List.replicate (simulation_length + 1) 0
    harvests := List.replicate (simulation_length + 1) 0
    j := 0 }

/-- The fire-risk expression of `land`:
`(1.0/fire_frequency) * (((w_l[-1] * 0.1) + w_c[-1])/20)`. -/
def fire_risk_of (cs : CState) : ℚ :=
  (1 / fire_frequency) * (((cur cs.w_l * 0.1) + cur cs.w_c) / 20)

/-- One year of `land`'s per-replicate loop (source lines 259-282), for
scenario `i` (0 = unharvested, 1 = harvest).  `rng` is the injected random
stream and `k` the current draw position.  Mirrors the source exactly:

* a first draw is taken; if `not infested`, the year lies in the infestation
  window and the draw is at most `infest_risk`, the appropriate infestation
  transition runs, the harvest (scenario 1) is subtracted into `harvests[j]`,
  `infestations[j]` is incremented and `age` is set to 0 — the source never
  sets the `infested` flag, and the year-end `age += 1` line is part of the
  other branch, so it is skipped;
* otherwise a second draw decides fire (risk proportional to surface fuel)
  versus a `three_PG` growth step at the current age, and in either case the
  branch ends with `age += 1` (so a fire year ends with `age = 0 + 1`). -/
def land_year (A : Analytic) (params : Params) (i : ℕ) (rng : ℕ → ℚ)
    (year : ℕ) (rep : LandRep) (k : ℕ) : Except String (LandRep × ℕ) := do
  let rand := rng k
  let k := k + 1
  if ¬ rep.infested ∧ (infest_start ≤ year ∧ year ≤ infest_end)
      ∧ rand ≤ infest_risk then
    let (cs, harvests) ←
      if i = 0 then do
        let cs ← unharvested_infestation params rep.cs
        pure (cs, rep.harvests)
      else if i = 1 then do
        let hc ← harvested_infestation params rep.cs
        pure (hc.2, rep.harvests.set rep.j (rep.harvests.getD rep.j 0 - hc.1))
      else
        pure (rep.cs, rep.harvests)
    let rep2 := { rep with
      cs := cs, age := 0, harvests := harvests
      infestations :=
        rep.infestations.set rep.j (rep.infestations.getD rep.j 0 + 1)
      j := rep.j + 1 }
    pure (rep2, k)
  else
    let fire_risk := fire_risk_of rep.cs
    let rand2 := rng k
    let k := k + 1
    if rand2 ≤ fire_risk then
      let cs ← fire params rep.cs
      let rep2 := { rep with
        cs := cs, age := 0 + 1
        fires := rep.fires.set rep.j (rep.fires.getD rep.j 0 + 1)
        j := rep.j + 1 }
      pure (rep2, k)
    else
      let cs ← three_PG A rep.age params rep.cs
      pure ({ rep with cs := cs, age := rep.age + 1, j := rep.j + 1 }, k)

/-- Embeds `land`'s per-replicate year loop over a list of years. -/
def land_sim (A : Analytic) (params : Params) (i : ℕ) (rng : ℕ → ℚ) :
    List ℕ → LandRep → ℕ → Except String (LandRep × ℕ)
  | [], rep, k => pure (rep, k)
  | year :: years, rep, k => do
    let rk ← land_year A params i rng year rep k
    land_sim A params i rng years rk.1 rk.2

/-- One full replicate of `land`: the year loop over `simulation_years`
starting from a fresh replicate state and draw position 0. -/
def land_replicate (A : Analytic) (params : Params) (i : ℕ) (rng : ℕ → ℚ) :
    Except String (LandRep × ℕ) :=
  land_sim A params i rng simulation_years initLandRep 0

/-! ### The Scenario Comparator tail of `land` (source lines 303-318) -/

/-- Elementwise sum of two per-year series (numpy array addition). -/
def addSeries (a b : List ℚ) : List ℚ := List.zipWith (· + ·) a b

/-- Embeds `landscape_total = total_w_f + total_w_s + total_w_r + total_w_l +
total_w_c + total_w_o` (elementwise). -/
def landscape_total (wf ws wr wl wc wo : List ℚ) : List ℚ :=
  addSeries (addSeries (addSeries (addSeries (addSeries wf ws) wr) wl) wc) wo

/-- Embeds `difference = landscape_totals[1] - landscape_totals[0]` (elementwise):
the harvest-scenario total minus the no-harvest total. -/
def scenario_difference (t0 t1 : List ℚ) : List ℚ :=
  List.zipWith (fun a b => a - b) t1 t0

/-- Embeds `np.cumsum`: the running-sum series of a per-year series (same length,
entry `i` is the sum of entries `0..i` of the input). -/
def cumsum : List ℚ → List ℚ
  | [] => []
  | x :: xs => x :: (cumsum xs).map (x + ·)

/-! ### The stand-level pure-growth loop (`stand` command, source lines
365-378): repeated `three_PG` steps with `age += 1` after each. -/

def stand_growth (A : Analytic) (age_max : ℚ) (n_age : ℕ)
    (phi_s f_DT sigma_f beers_k microbial_efficiency : ℚ) :
    ℕ → CState × ℕ
  | 0 => (initCState, 0)
  | n + 1 =>
    let p := stand_growth A age_max n_age phi_s f_DT sigma_f beers_k
      microbial_efficiency n
    (three_PG_vals A p.2 age_max n_age phi_s f_DT sigma_f beers_k
      microbial_efficiency p.1, p.2 + 1)

/-! ### Concrete instances used for evaluation -/

/-- A concrete analytic record (exp and log both constantly zero); the
claims evaluated with it depend only on the algebraic structure of the code,
not on properties of the real exponential. -/
def A0 : Analytic := ⟨fun _ => 0, fun _ => 0⟩

/-- The constantly-zero random stream: every draw fires any event whose
probability is nonnegative. -/
def rng0 : ℕ → ℚ := fun _ => 0

/-- The constantly-one random stream: no event with probability below one
ever fires. -/
def rng1 : ℕ → ℚ := fun _ => 1

/-- A stream whose second draw is 0 and all others 1: in year one it skips
infestation (draw 1) and fires the fire branch (draw 0); from year two on it
takes the growth branch. -/
def rngFireThenGrow : ℕ → ℚ := fun k => if k = 1 then 0 else 1

/-- The default parameters with specific leaf area set to the non-positive
value `-3.2` (everything else unchanged). -/
def negSigmaParams : Params :=
  [("age_max", 150), ("n_age", 4), ("phi_s", 5.5), ("f_DT", 0.5),
   ("sigma_f", -3.2), ("beers_k", 0.4), ("microbial_efficiency", 0.25)]

/-- The default parameters with the recognized key `phi_s` missing. -/
def missingPhiParams : Params :=
  [("age_max", 150), ("n_age", 4), ("f_DT", 0.5),
   ("sigma_f", 3.2), ("beers_k", 0.4), ("microbial_efficiency", 0.25)]

/-! ### Helper lemmas -/

theorem cur_concat (l : List ℚ) (x : ℚ) : cur (l ++ [x]) = x :=
  List.getLastD_concat _ _ _

theorem prev_concat (l : List ℚ) (x : ℚ) : prev (l ++ [x]) = cur l := by
  simp [prev, cur, List.dropLast_concat]

theorem exbind_ok {α β : Type} (a : α) (f : α → Except String β) :
    (Except.ok a >>= f) = f a := rfl

theorem exbind_error {α β : Type} (e : String) (f : α → Except String β) :
    ((Except.error e : Except String α) >>= f) = Except.error e := rfl

theorem expure {α : Type} (a : α) : (pure a : Except String α) = Except.ok a :=
  rfl

theorem exmap_ok {α β : Type} (a : α) (f : α → β) :
    (Except.ok a : Except String α).map f = Except.ok (f a) := rfl

theorem ex_isOk_ok {α : Type} (a : α) :
    (Except.ok a : Except String α).isOk = true := rfl

theorem rp_default_age_max : readParam defaultParams "age_max" = Except.ok 150 := rfl

theorem rp_default_n_age : readParam defaultParams "n_age" = Except.ok 4 := rfl

theorem rp_default_phi_s : readParam defaultParams "phi_s" = Except.ok 5.5 := rfl

theorem rp_default_f_DT : readParam defaultParams "f_DT" = Except.ok 0.5 := rfl

theorem rp_default_sigma_f : readParam defaultParams "sigma_f" = Except.ok 3.2 := rfl

theorem rp_default_beers_k : readParam defaultParams "beers_k" = Except.ok 0.4 := rfl

theorem rp_default_micro :
    readParam defaultParams "microbial_efficiency" = Except.ok 0.25 := rfl

theorem rp_negSigma_age_max : readParam negSigmaParams "age_max" = Except.ok 150 := rfl

theorem rp_negSigma_n_age : readParam negSigmaParams "n_age" = Except.ok 4 := rfl

theorem rp_negSigma_phi_s : readParam negSigmaParams "phi_s" = Except.ok 5.5 := rfl

theorem rp_negSigma_f_DT : readParam negSigmaParams "f_DT" = Except.ok 0.5 := rfl

theorem rp_negSigma_sigma_f :
    readParam negSigmaParams "sigma_f" = Except.ok (-3.2) := rfl

theorem rp_negSigma_beers_k : readParam negSigmaParams "beers_k" = Except.ok 0.4 := rfl

theorem rp_negSigma_micro :
    readParam negSigmaParams "microbial_efficiency" = Except.ok 0.25 := rfl

theorem rp_missing_age_max : readParam missingPhiParams "age_max" = Except.ok 150 := rfl

theorem rp_missing_n_age : readParam missingPhiParams "n_age" = Except.ok 4 := rfl

theorem rp_missing_phi_s :
    readParam missingPhiParams "phi_s" = Except.error "phi_s" := rfl

/-! ### Claims -/

/-- C5: both infestation transitions append age 0 and the residual `0.1` for
foliage, stem and root, add the pre-reset foliage to litter and the pre-reset
root times microbial efficiency to soil organic matter; the unharvested
variant additionally adds the pre-reset stem to coarse fuel, while the
harvested variant leaves coarse fuel unchanged and returns the pre-reset stem
as the harvested amount.  With microbial efficiency `0.25` and pre-reset
pools foliage = stem = root = litter = coarse = `0.1`, soil organic matter
`40`, the harvested transition yields age 0, foliage = stem = root = `0.1`,
soil organic matter `40.025`, and returns `0.1`. -/
theorem C5_infestation_transitions_exact :
    (∀ (μ : ℚ) (s : CState),
      unharvested_infestation_vals μ s =
        { age := s.age ++ [0]
          w_f := s.w_f ++ [0.1]
          w_s := s.w_s ++ [0.1]
          w_r := s.w_r ++ [0.1]
          w_l := s.w_l ++ [cur s.w_l + cur s.w_f]
          w_c := s.w_c ++ [cur s.w_c + cur s.w_s]
          w_o := s.w_o ++ [cur s.w_o + cur s.w_r * μ]
          LAI := s.LAI ++ [0]
          interception := s.interception ++ [0] })
    ∧ (∀ (μ : ℚ) (s : CState),
      harvested_infestation_vals μ s =
        (cur s.w_s,
         { age := s.age ++ [0]
           w_f := s.w_f ++ [0.1]
           w_s := s.w_s ++ [0.1]
           w_r := s.w_r ++ [0.1]
           w_l := s.w_l ++ [cur s.w_l + cur s.w_f]
           w_c := s.w_c ++ [cur s.w_c]
           w_o := s.w_o ++ [cur s.w_o + cur s.w_r * μ]
           LAI := s.LAI ++ [0]
           interception := s.interception ++ [0] }))
    ∧ harvested_infestation_vals 0.25 initCState =
        (0.1,
         { age := [0, 0]
           w_f := [0.1, 0.1]
           w_s := [0.1, 0.1]
           w_r := [0.1, 0.1]
           w_l := [0.1, 0.2]
           w_c := [0.1, 0.1]
           w_o := [40, 40.025]
           LAI := [0, 0]
           interception := [0, 0] }) := by
  refine ⟨?_, ?_, ?_⟩
  · intro μ s
    simp [unharvested_infestation_vals, prev_concat]
  · intro μ s
    simp [harvested_infestation_vals, prev_concat]
  · norm_num [harvested_infestation_vals, prev, cur, initCState,
      List.dropLast_concat]

/-- C6: the fire transition appends age 0, sets foliage, stem, root, litter
and coarse fuel each to the residual `0.1`, adds exactly the pre-reset root
carbon times microbial efficiency to soil organic matter, and sets LAI and
interception to 0; no other pre-reset biomass is carried over. -/
theorem C6_fire_transition_exact :
    ∀ (μ : ℚ) (s : CState),
      fire_vals μ s =
        { age := s.age ++ [0]
          w_f := s.w_f ++ [0.1]
          w_s := s.w_s ++ [0.1]
          w_r := s.w_r ++ [0.1]
          w_l := s.w_l ++ [0.1]
          w_c := s.w_c ++ [0.1]
          w_o := s.w_o ++ [cur s.w_o + cur s.w_r * μ]
          LAI := s.LAI ++ [0]
          interception := s.interception ++ [0] } := by
  intro μ s
  simp [fire_vals, prev_concat]

/-- C10: in a growth year the value appended to the `age` series is the
start-of-year age passed to `three_PG` (the age used for that year's age
modifier), not the incremented post-step age; consequently, after `y`
consecutive growth years starting from age 0, the recorded age series is
`[0, 0, 1, ..., y-1]` (`0 :: List.range y`), lagging one year behind the
number of years simulated. -/
theorem C10_age_series_lags :
    (∀ (A : Analytic) (age : ℕ) (age_max : ℚ) (n_age : ℕ)
        (phi_s f_DT sigma_f beers_k μ : ℚ) (s : CState),
      (three_PG_vals A age age_max n_age phi_s f_DT sigma_f beers_k μ s).age
        = s.age ++ [age])
    ∧ (∀ (A : Analytic) (age_max : ℚ) (n_age : ℕ)
        (phi_s f_DT sigma_f beers_k μ : ℚ) (y : ℕ),
      (stand_growth A age_max n_age phi_s f_DT sigma_f beers_k μ y).1.age
        = 0 :: List.range y) := by
  constructor
  · intro A age age_max n_age phi_s f_DT sigma_f beers_k μ s
    rfl
  · intro A age_max n_age phi_s f_DT sigma_f beers_k μ y
    have key : ∀ y : ℕ,
        (stand_growth A age_max n_age phi_s f_DT sigma_f beers_k μ y).1.age
          = 0 :: List.range y
        ∧ (stand_growth A age_max n_age phi_s f_DT sigma_f beers_k μ y).2 = y := by
      intro y
      induction y with
      | zero => exact ⟨rfl, rfl⟩
      | succ n ih =>
        refine ⟨?_, ?_⟩
        · show (three_PG_vals A _ _ _ _ _ _ _ _ _).age = _
          rw [show (three_PG_vals A
              (stand_growth A age_max n_age phi_s f_DT sigma_f beers_k μ n).2
              age_max n_age phi_s f_DT sigma_f beers_k μ
              (stand_growth A age_max n_age phi_s f_DT sigma_f beers_k μ n).1).age
            = (stand_growth A age_max n_age phi_s f_DT sigma_f beers_k μ n).1.age
              ++ [(stand_growth A age_max n_age phi_s f_DT sigma_f beers_k μ n).2]
            from rfl, ih.1, ih.2]
          simp [List.range_succ]
        · show (stand_growth A age_max n_age phi_s f_DT sigma_f beers_k μ n).2 + 1 = n + 1
          rw [ih.2]
    exact (key y).1

/-- C2 (counterexample): the growth step does not conserve mass in the
claimed sense.  At the default parameter values, age 0 and the initial pools
(with the injected analytic functions constantly zero), the summed six pools
after the step differ from the sum before plus the computed annual carbon
increment. -/
theorem C2_counterexample :
    sumPools (three_PG_vals A0 0 150 4 5.5 0.5 3.2 0.4 0.25 initCState)
      ≠ sumPools initCState
        + annual_c_increment_of A0 0 150 4 5.5 0.5 3.2 0.4
            (cur initCState.w_f) := by
  norm_num [sumPools, three_PG_vals, annual_c_increment_of, phi_pa_of,
    intercept_fraction_of, beers_law_scalar, age_modifier, turnover_of,
    initCState, cur, A0]

/-- C2 (amended): a growth step changes the summed six pools by `0.99` times
the annual carbon increment (the three `0.33` allocation fractions), minus
the non-stabilized fraction `1 - microbial_efficiency` of the root, litter
and coarse-fuel turnover flows, minus the entire soil-organic-matter
turnover; the litterfall and branchfall transfers are internal and cancel.
Carbon is therefore lost from the system during pure growth. -/
theorem C2_growth_mass_balance (A : Analytic) (age : ℕ) (age_max : ℚ)
    (n_age : ℕ) (phi_s f_DT sigma_f beers_k μ : ℚ) (s : CState) :
    sumPools (three_PG_vals A age age_max n_age phi_s f_DT sigma_f beers_k μ s)
      = sumPools s
        + 0.99 * annual_c_increment_of A age age_max n_age phi_s f_DT sigma_f
            beers_k (cur s.w_f)
        - (1 - μ) * (0.25 * cur s.w_r + turnover_of A 2 (cur s.w_l)
            + turnover_of A 20 (cur s.w_c))
        - turnover_of A 10 (cur s.w_o) := by
  simp only [sumPools, three_PG_vals, cur_concat]
  ring

/-- C7: `three_PG` computes absorbed photosynthetically active radiation as
the converted incident radiation times `0.5` times the interception
fraction, although the source's own comment on that line says
"photosynthetically-active radiation is 45% of total shortwave": at the
default radiation `phi_s = 5.5` and interception fraction 1 the code yields
`9.9` MJ/m2/day where the documented `0.45` PAR fraction would yield
`8.91`. -/
theorem C7_par_fraction_bug :
    phi_pa_of A0 5.5 0.4 1 = 9.9
    ∧ ((5.5 : ℚ) * 3.6) * 0.45 * intercept_fraction_of A0 0.4 1 = 8.91
    ∧ (9.9 : ℚ) ≠ 8.91 := by
  norm_num [phi_pa_of, intercept_fraction_of, beers_law_scalar, A0]

/-- C8: for every positive `age_max` and positive (natural) exponent
`n_age`, the age modifier equals exactly 1 at age 0 and is strictly
decreasing in age on the positive ages. -/
theorem C8_age_modifier_shape (age_max : ℚ) (n_age : ℕ)
    (hmax : 0 < age_max) (hn : 0 < n_age) :
    age_modifier 0 age_max n_age = 1
    ∧ ∀ a b : ℚ, 0 < a → a < b →
        age_modifier b age_max n_age < age_modifier a age_max n_age := by
  constructor
  · simp [age_modifier, zero_pow hn.ne']
  · intro a b ha hab
    unfold age_modifier
    have h95 : (0 : ℚ) < 0.95 := by norm_num
    have hxa : 0 < a / age_max / 0.95 := div_pos (div_pos ha hmax) h95
    have hxab : a / age_max / 0.95 < b / age_max / 0.95 := by
      apply div_lt_div_of_pos_right _ h95
      exact div_lt_div_of_pos_right hab hmax
    have hpow : (a / age_max / 0.95) ^ n_age < (b / age_max / 0.95) ^ n_age :=
      pow_lt_pow_left₀ hxab hxa.le hn.ne'
    have hden : (0 : ℚ) < 1 + (a / age_max / 0.95) ^ n_age :=
      add_pos_of_pos_of_nonneg one_pos (pow_nonneg hxa.le _)
    exact one_div_lt_one_div_of_lt hden (by linarith)

/-- C8 witness: the age-modifier shape at `age_max = 150`, `n_age = 4`,
checked between ages 1 and 2. -/
theorem C8_age_modifier_shape_witness :
    age_modifier 0 150 4 = 1 ∧ age_modifier 2 150 4 < age_modifier 1 150 4 := by
  obtain ⟨h1, h2⟩ := C8_age_modifier_shape 150 4 (by norm_num) (by norm_num)
  exact ⟨h1, h2 1 2 (by norm_num) (by norm_num)⟩

/-- C3: the claim that at most one infestation can occur per replicate is
violated by the code: the `infested` flag is initialized `False` but never
set, so its guard never blocks.  Running the per-replicate year loop from a
fresh replicate state over the consecutive infestation-window years 2005 and
2006 of the unharvested scenario, with the random stream constantly 0, fires
an infestation in *both* years, and the `infested` flag is still `False`
afterwards. -/
theorem C3_second_infestation_fires :
    (land_sim A0 defaultParams 0 rng0 [2005, 2006] initLandRep 0).map
        (fun rk => (rk.1.infestations.getD 0 0, rk.1.infestations.getD 1 0,
          rk.1.infested))
      = Except.ok (1, 1, false) := by
  norm_num [land_sim, land_year, unharvested_infestation,
    unharvested_infestation_vals, rp_default_micro, exbind_ok, expure,
    exmap_ok, initLandRep, initCState, infest_risk, infest_start, infest_end,
    simulation_length, rng0, cur, prev, fire_risk_of, fire_frequency]

/-- C4 (counterexample): after a fire year the next year does not begin at
reset age 0.  With a random stream that fires a fire in 1915 and lets 1916 be
a growth year, the age counter is already 1 at the end of the fire year
(refuting "the stand age counter is incremented only by growth steps, never
during a disturbance year"), and the 1916 growth step is invoked at age 1 and
records it, so the age series is `[0, 0, 1]`, not `[0, 0, 0]`. -/
theorem C4_counterexample :
    (land_sim A0 defaultParams 0 rngFireThenGrow [1915] initLandRep 0).map
        (fun rk => rk.1.age) = Except.ok 1
    ∧ (land_sim A0 defaultParams 0 rngFireThenGrow [1915, 1916] initLandRep 0).map
        (fun rk => rk.1.cs.age) = Except.ok [0, 0, 1] := by
  constructor
  · norm_num [land_sim, land_year, fire, fire_vals, rp_default_micro,
      exbind_ok, expure, exmap_ok, initLandRep, initCState, infest_risk,
      infest_start, infest_end, simulation_length, rngFireThenGrow, cur, prev,
      fire_risk_of, fire_frequency]
  · norm_num [land_sim, land_year, fire, fire_vals, three_PG, three_PG_vals,
      rp_default_micro, rp_default_age_max, rp_default_n_age, rp_default_phi_s,
      rp_default_f_DT, rp_default_sigma_f, rp_default_beers_k,
      exbind_ok, expure, exmap_ok, initLandRep, initCState, infest_risk,
      infest_start, infest_end, simulation_length, rngFireThenGrow, cur, prev,
      fire_risk_of, fire_frequency, Int.toNat_ofNat]

/-- C4 (amended): in the per-replicate loop, an infestation year leaves the
following year at reset age 0, but a fire year ends with the age counter
already incremented to 1 (the year-end `age += 1` also runs in fire years),
and a growth year increments the age by one. -/
theorem C4_age_after_year (A : Analytic) (i : ℕ) (rng : ℕ → ℚ) (year : ℕ)
    (rep : LandRep) (k : ℕ) :
    (land_year A defaultParams i rng year rep k).map (fun rk => rk.1.age)
      = Except.ok
          (if ¬ rep.infested ∧ (infest_start ≤ year ∧ year ≤ infest_end)
              ∧ rng k ≤ infest_risk then 0
           else if rng (k + 1) ≤ fire_risk_of rep.cs then 1
           else rep.age + 1) := by
  by_cases h1 : rep.infested = false ∧ (infest_start ≤ year ∧ year ≤ infest_end)
      ∧ rng k ≤ infest_risk
  · by_cases h2 : i = 0
    · simp [land_year, h1, h2, unharvested_infestation, rp_default_micro,
        exbind_ok, expure, exmap_ok]
    · by_cases h3 : i = 1
      · simp [land_year, h1, h2, h3, harvested_infestation, rp_default_micro,
          exbind_ok, expure, exmap_ok]
      · simp [land_year, h1, h2, h3, exbind_ok, expure, exmap_ok]
  · by_cases h2 : rng (k + 1) ≤ fire_risk_of rep.cs
    · simp [land_year, h1, h2, fire, rp_default_micro, exbind_ok, expure,
        exmap_ok]
    · simp [land_year, h1, h2, three_PG, rp_default_micro, rp_default_age_max,
        rp_default_n_age, rp_default_phi_s, rp_default_f_DT,
        rp_default_sigma_f, rp_default_beers_k, exbind_ok, expure, exmap_ok]

theorem land_year_negSigma_isOk (A : Analytic) (i : ℕ) (rng : ℕ → ℚ)
    (year : ℕ) (rep : LandRep) (k : ℕ) :
    (land_year A negSigmaParams i rng year rep k).isOk = true := by
  by_cases h1 : rep.infested = false ∧ (infest_start ≤ year ∧ year ≤ infest_end)
      ∧ rng k ≤ infest_risk
  · by_cases h2 : i = 0
    · simp [land_year, h1, h2, unharvested_infestation, rp_negSigma_micro,
        exbind_ok, expure, ex_isOk_ok]
    · by_cases h3 : i = 1
      · simp [land_year, h1, h2, h3, harvested_infestation, rp_negSigma_micro,
          exbind_ok, expure, ex_isOk_ok]
      · simp [land_year, h1, h2, h3, exbind_ok, expure, ex_isOk_ok]
  · by_cases h2 : rng (k + 1) ≤ fire_risk_of rep.cs
    · simp [land_year, h1, h2, fire, rp_negSigma_micro, exbind_ok, expure,
        ex_isOk_ok]
    · simp [land_year, h1, h2, three_PG, rp_negSigma_micro, rp_negSigma_age_max,
        rp_negSigma_n_age, rp_negSigma_phi_s, rp_negSigma_f_DT,
        rp_negSigma_sigma_f, rp_negSigma_beers_k, exbind_ok, expure, ex_isOk_ok]

theorem land_sim_negSigma_isOk (A : Analytic) (i : ℕ) (rng : ℕ → ℚ) :
    ∀ (years : List ℕ) (rep : LandRep) (k : ℕ),
      (land_sim A negSigmaParams i rng years rep k).isOk = true := by
  intro years
  induction years with
  | nil => intro rep k; rfl
  | cons y ys ih =>
    intro rep k
    have h := land_year_negSigma_isOk A i rng y rep k
    cases hy : land_year A negSigmaParams i rng y rep k with
    | error e =>
      rw [hy] at h
      exact absurd h (by simp [Except.isOk, Except.toBool])
    | ok v =>
      have : land_sim A negSigmaParams i rng (y :: ys) rep k
          = land_sim A negSigmaParams i rng ys v.1 v.2 := by
        simp [land_sim, hy, exbind_ok]
      rw [this]
      exact ih v.1 v.2

/-- C9 (counterexample): a Parameter Set containing a non-positive value
where positivity is required (specific leaf area set to `-3.2`) does not make
the simulation fail at validation time before any simulation year executes —
a one-year replicate run completes successfully. -/
theorem C9_counterexample :
    (land_sim A0 negSigmaParams 0 rng1 [1915] initLandRep 0).isOk = true := by
  norm_num [land_sim, land_year, three_PG, three_PG_vals, rp_negSigma_micro,
    rp_negSigma_age_max, rp_negSigma_n_age, rp_negSigma_phi_s, rp_negSigma_f_DT,
    rp_negSigma_sigma_f, rp_negSigma_beers_k, exbind_ok, expure, ex_isOk_ok,
    initLandRep, initCState, infest_risk, infest_start, infest_end,
    simulation_length, rng1, cur, prev, fire_risk_of, fire_frequency,
    Int.toNat_ofNat]

/-- C9 (amended): the code performs no Parameter Set validation.  A set with
a non-positive value (specific leaf area `-3.2`) is accepted silently — every
replicate run over any year list succeeds.  A set missing the recognized key
`phi_s` does not fail before the simulation years either: a zero-year run
returns successfully, and the `KeyError` surfaces only when the key is first
read inside a simulation year's growth step. -/
theorem C9_no_upfront_validation :
    (∀ (A : Analytic) (i : ℕ) (rng : ℕ → ℚ) (years : List ℕ) (rep : LandRep)
        (k : ℕ), (land_sim A negSigmaParams i rng years rep k).isOk = true)
    ∧ land_sim A0 missingPhiParams 0 rng1 [] initLandRep 0
        = Except.ok (initLandRep, 0)
    ∧ land_sim A0 missingPhiParams 0 rng1 [1915] initLandRep 0
        = Except.error "phi_s" := by
  refine ⟨fun A i rng years rep k => land_sim_negSigma_isOk A i rng years rep k,
    rfl, ?_⟩
  norm_num [land_sim, land_year, three_PG, rp_missing_age_max, rp_missing_n_age,
    rp_missing_phi_s, exbind_ok, exbind_error, expure, initLandRep, initCState,
    infest_risk, infest_start, infest_end, simulation_length, rng1, cur, prev,
    fire_risk_of, fire_frequency]

theorem cumsum_length : ∀ l : List ℚ, (cumsum l).length = l.length := by
  intro l
  induction l with
  | nil => rfl
  | cons x xs ih => simp [cumsum, ih]

theorem scenario_difference_getD :
    ∀ (t0 t1 : List ℚ) (y : ℕ), y < t0.length → y < t1.length →
      (scenario_difference t0 t1).getD y 0 = t1.getD y 0 - t0.getD y 0 := by
  intro t0
  induction t0 with
  | nil => intro t1 y h0 _; exact absurd h0 (by simp)
  | cons a as ih =>
    intro t1 y h0 h1
    cases t1 with
    | nil => exact absurd h1 (by simp)
    | cons b bs =>
      cases y with
      | zero => simp [scenario_difference]
      | succ n =>
        have := ih bs n (by simpa using h0) (by simpa using h1)
        simpa [scenario_difference] using this

theorem cumsum_getD :
    ∀ (l : List ℚ) (i : ℕ), i < l.length →
      (cumsum l).getD i 0 = (l.take (i + 1)).sum := by
  intro l
  induction l with
  | nil => intro i hi; exact absurd hi (by simp)
  | cons x xs ih =>
    intro i hi
    cases i with
    | zero => simp [cumsum]
    | succ n =>
      have hn : n < xs.length := by simpa using hi
      have hlen : n < (cumsum xs).length := by rw [cumsum_length]; exact hn
      calc (cumsum (x :: xs)).getD (n + 1) 0
          = ((cumsum xs).map (x + ·)).getD n 0 := by simp [cumsum]
        _ = x + (cumsum xs).getD n 0 := by
              rw [List.getD_eq_getElem?_getD, List.getElem?_map,
                List.getElem?_eq_getElem hlen]
              simp [List.getD_eq_getElem?_getD,
                List.getElem?_eq_getElem hlen]
        _ = x + (xs.take (n + 1)).sum := by rw [ih n hn]
        _ = ((x :: xs).take (n + 1 + 1)).sum := by simp [List.take_succ_cons]

/-- C1 (counterexample): the carbon-deficit series is not the no-harvest
total minus the harvest total.  With a one-year no-harvest total series `[1]`
and harvest total series `[0]`, the code's difference series is `[-1]`, not
the claimed `[1 - 0]`. -/
theorem C1_counterexample :
    scenario_difference [(1 : ℚ)] [0] ≠ [(1 : ℚ) - 0] := by
  norm_num [scenario_difference]

/-- C1 (amended): the comparator computes the deficit with the opposite
orientation — entry `y` of the difference series is the harvest scenario's
total minus the no-harvest scenario's total; the cumulative-removed-carbon
series is the running sum of the recorded per-year harvest entries (entry `i`
is the sum of entries `0..i`); and the loop records each year's harvested
amount negated (`harvests[j] -= harvest`): a forced harvested infestation of
the initial stand records `-0.1`. -/
theorem C1_comparator_amended :
    (∀ (t0 t1 : List ℚ) (y : ℕ), y < t0.length → y < t1.length →
      (scenario_difference t0 t1).getD y 0 = t1.getD y 0 - t0.getD y 0)
    ∧ (∀ (l : List ℚ) (i : ℕ), i < l.length →
      (cumsum l).getD i 0 = (l.take (i + 1)).sum)
    ∧ (land_sim A0 defaultParams 1 rng0 [2005] initLandRep 0).map
        (fun rk => rk.1.harvests.getD 0 0) = Except.ok (-0.1) := by
  refine ⟨scenario_difference_getD, cumsum_getD, ?_⟩
  norm_num [land_sim, land_year, harvested_infestation,
    harvested_infestation_vals, rp_default_micro, exbind_ok, expure, exmap_ok,
    initLandRep, initCState, infest_risk, infest_start, infest_end,
    simulation_length, rng0, cur, prev, fire_risk_of, fire_frequency,
    List.getD_eq_getElem?_getD]

/-- C1 witness: the amended comparator facts at concrete series. -/
theorem C1_comparator_amended_witness :
    (scenario_difference [3, 4] [5, 6]).getD 1 0
        = [(5 : ℚ), 6].getD 1 0 - [(3 : ℚ), 4].getD 1 0
    ∧ (cumsum [2, 5]).getD 1 0 = ([(2 : ℚ), 5].take 2).sum :=
  ⟨C1_comparator_amended.1 [3, 4] [5, 6] 1 (by norm_num) (by norm_num),
   C1_comparator_amended.2.1 [2, 5] 1 (by norm_num)⟩

end ForestDynamics
